import Mathlib

/-!
# Verification of `entrypoint.py` (uts-itd/actions.public.prismaconfig)

A shallow embedding of the single Python source file `src/entrypoint.py`.
The script inspects a checked-out repository for Terraform (`.tf`) or
CloudFormation (JSON/YAML containing `AWSTemplateFormatVersion`) IAC files,
classifies the repository as `tf` / `cfm` / `none` (with a conflict policy
built around a placeholder file `dummy.tf`), and writes canned scanner
configuration templates into fixed locations.

The filesystem is modelled as a finite association list from absolute path
strings to file contents, together with a list of directory paths.  Python
string operations used by the script (`lower`, `endswith`, `in`) are embedded
as character-list functions (the repository only ever deals with ASCII
paths and markers, where `Char.toLower` agrees with Python `str.lower`).
`sys.exit(code)` is modelled as `Except.error` carrying the exit code and the
diagnostic text printed before exiting; `shutil.copyfile` failure (missing
source) is modelled as `Except.error` carrying the state at the failure
point.  The `git_commit` step shells out and never touches the workspace
content model, and `set_code_path` only reads an environment variable, so the
workspace root path is a parameter of `main` here.
-/

/-- Python `str.lower()` (ASCII-faithful: maps `Char.toLower` over the text). -/
def pyLower (s : String) : String := String.mk (s.data.map Char.toLower)

/-- Python `s.endswith(suf)`. -/
def strEndsWith (s suf : String) : Bool := suf.data.isSuffixOf s.data

/-- Helper for Python `needle in hay`: does `needle` occur as a contiguous
sub-list of the character list? -/
def charsContains (needle : List Char) : List Char → Bool
  | [] => needle.isEmpty
  | c :: cs => needle.isPrefixOf (c :: cs) || charsContains needle cs

/-- Python `needle in hay` on strings. -/
def strContains (hay needle : String) : Bool := charsContains needle.data hay.data

/-- The filesystem state: files as an association list (path to content) and a
list of directory paths.  Association-list shadowing never arises because
`writeFile` removes the stale entry. -/
structure FS where
  files : List (String × String)
  dirs : List String
deriving DecidableEq, Repr

/-- First content bound to path `p`, if any. -/
def assocFind (p : String) : List (String × String) → Option String
  | [] => none
  | (k, v) :: es => if k = p then some v else assocFind p es

/-- Python `os.path.isfile`. -/
def isfile (fs : FS) (p : String) : Bool := (assocFind p fs.files).isSome

/-- Directory presence. -/
def isdir (fs : FS) (p : String) : Bool := fs.dirs.any (fun d => decide (d = p))

/-- Python `os.path.exists` (a path exists if a file or a directory is there). -/
def pathExists (fs : FS) (p : String) : Bool := isfile fs p || isdir fs p

/-- Content of the file at `p` (the script only reads paths produced by the
directory walk, which exist; a missing path reads as the empty string). -/
def readFile (fs : FS) (p : String) : String := (assocFind p fs.files).getD ""

/-- Drop every binding for path `p`. -/
def eraseKey (p : String) : List (String × String) → List (String × String)
  | [] => []
  | (k, v) :: es => if k = p then eraseKey p es else (k, v) :: eraseKey p es

/-- Write `c` at path `p`, replacing any previous binding. -/
def writeFile (fs : FS) (p c : String) : FS :=
  { fs with files := (p, c) :: eraseKey p fs.files }

/-- Python `os.remove`. -/
def removeFile (fs : FS) (p : String) : FS :=
  { fs with files := eraseKey p fs.files }

/-- Python `pathlib.Path(p).touch()`: create an empty file if nothing exists
at `p`; otherwise only the mtime changes, which the model does not track. -/
def touchFile (fs : FS) (p : String) : FS :=
  if pathExists fs p then fs else writeFile fs p ""

/-- Python `os.makedirs` (the workspace root always exists, so only the leaf
directory is recorded). -/
def mkdirs (fs : FS) (p : String) : FS := { fs with dirs := p :: fs.dirs }

/-! ## The script's functions (`src/entrypoint.py`) -/

/-- `check_existing_config` (entrypoint.py lines 40-52): config counts as
pre-existing when one of the two config files is present, unless the
placeholder `dummy.tf` is also present (then a re-scan is forced). -/
def check_existing_config (code_path : String) (fs : FS) : Bool :=
  let existing_config :=
    isfile fs (code_path ++ "/.prismaCloud/config.yml") ||
    isfile fs (code_path ++ "/.github/prisma-cloud-config.yml")
  if existing_config && isfile fs (code_path ++ "/dummy.tf") then false
  else existing_config

/-- The collection test of `search_for_iac` (line 66):
`name.lower().endswith(("tf", "yml", "yaml", "json"))` — bare suffixes, no
dot.  Since none of the suffixes contains a path separator, testing the full
path is equivalent to testing the file name component. -/
def searchMatch (name : String) : Bool :=
  strEndsWith (pyLower name) "tf" || strEndsWith (pyLower name) "yml" ||
  strEndsWith (pyLower name) "yaml" || strEndsWith (pyLower name) "json"

/-- Is `p` strictly below the root `code_path` (the region `os.walk` visits)? -/
def underRoot (code_path p : String) : Bool :=
  (code_path ++ "/").data.isPrefixOf p.data

/-- `search_for_iac` (lines 55-69): walk the tree under `code_path` and
collect every file whose (lower-cased) name ends with one of the bare
suffixes. -/
def search_for_iac (code_path : String) (fs : FS) : List String :=
  (fs.files.map Prod.fst).filter (fun p => underRoot code_path p && searchMatch p)

/-- The Terraform count test of `check_iac_type` (line 81):
`target.lower().endswith(".tf")`. -/
def tfTarget (target : String) : Bool := strEndsWith (pyLower target) ".tf"

/-- The CloudFormation extension test of `check_iac_type` (line 84):
`target.lower().endswith(('.json','.yaml','.yml'))`. -/
def cfmExt (target : String) : Bool :=
  strEndsWith (pyLower target) ".json" || strEndsWith (pyLower target) ".yaml" ||
  strEndsWith (pyLower target) ".yml"

/-- The CloudFormation count test of `check_iac_type` (lines 84-87): right
extension and `"AWSTemplateFormatVersion" in file.read()`. -/
def cfmTarget (fs : FS) (target : String) : Bool :=
  cfmExt target && strContains (readFile fs target) "AWSTemplateFormatVersion"

/-- The counting loop of `check_iac_type` (lines 77-87), with the two running
counters as accumulators. -/
def iacCounts (fs : FS) : List String → Nat → Nat → Nat × Nat
  | [], count_tf, count_cfm => (count_tf, count_cfm)
  | target :: targets, count_tf, count_cfm =>
    let count_tf := if tfTarget target then count_tf + 1 else count_tf
    let count_cfm := if cfmTarget fs target then count_cfm + 1 else count_cfm
    iacCounts fs targets count_tf count_cfm

/-- `check_iac_type` (lines 72-108).  `sys.exit(1)` is `Except.error` with the
exit code and the diagnostic printed just before the exit. -/
def check_iac_type (targets : List String) (code_path : String) (fs : FS) :
    Except (Nat × String) String :=
  let c := iacCounts fs targets 0 0
  let count_tf := c.1
  let count_cfm := c.2
  if count_tf > 0 ∧ count_cfm > 0 ∧ ¬ isfile fs (code_path ++ "/dummy.tf") then
    .error (1, "CFM and TF in the same repo. Run away, run away!")
  else if count_tf > 1 ∧ count_cfm > 0 ∧ isfile fs (code_path ++ "/dummy.tf") then
    .error (1, "CFM and TF in the same repo after having none before \nas evidenced by file \x27dummy.tf\x27. Run away, run away!")
  else if count_tf = 0 ∧ count_cfm = 0 then .ok "none"
  else if count_tf = 1 ∧ count_cfm > 0 ∧ isfile fs (code_path ++ "/dummy.tf") then
    .ok "cfm"
  else if count_tf > 0 ∧ count_cfm = 0 then .ok "tf"
  else if count_cfm > 0 ∧ count_tf = 0 then .ok "cfm"
  else .ok "none"

/-- `configure_dirs` (lines 111-120). -/
def configure_dirs (code_path : String) (fs : FS) : FS :=
  let fs1 :=
    if pathExists fs (code_path ++ "/.prismaCloud") then fs
    else mkdirs fs (code_path ++ "/.prismaCloud")
  if pathExists fs1 (code_path ++ "/.github") then fs1
  else mkdirs fs1 (code_path ++ "/.github")

/-- `shutil.copyfile`: fatal (uncaught exception) when the source is missing;
the error carries the state at the failure point. -/
def copyfile (src dst : String) (fs : FS) : Except FS FS :=
  if isfile fs src then .ok (writeFile fs dst (readFile fs src)) else .error fs

/-- `configure_tf` (lines 123-141): placeholder lifecycle (touch when
`is_dummy`, delete a present placeholder otherwise) followed by the two
template copies. -/
def configure_tf (is_dummy : Bool) (path : String) (fs : FS) : Except FS FS :=
  let code_path := path
  let fs1 :=
    if is_dummy then touchFile fs (code_path ++ "/dummy.tf")
    else if pathExists fs (code_path ++ "/dummy.tf") then
      removeFile fs (code_path ++ "/dummy.tf")
    else fs
  (copyfile "/config-tf.yml" (code_path ++ "/.prismaCloud/config.yml") fs1).bind
    (copyfile "/prisma-cloud-config.yml" (code_path ++ "/.github/prisma-cloud-config.yml"))

/-- `configure_cfm` (lines 144-157). -/
def configure_cfm (code_path : String) (fs : FS) : Except FS FS :=
  let fs1 :=
    if pathExists fs (code_path ++ "/dummy.tf") then
      removeFile fs (code_path ++ "/dummy.tf")
    else fs
  (copyfile "/config-cfm.yml" (code_path ++ "/.prismaCloud/config.yml") fs1).bind
    (copyfile "/prisma-cloud-config.yml" (code_path ++ "/.github/prisma-cloud-config.yml"))

/-- Outcome of a run of `main`: a `sys.exit(code)`, an uncaught I/O exception
(template copy failure), or normal completion with the classification.  Each
constructor carries the filesystem state at that point. -/
inductive RunResult where
  | exited (code : Nat) (fs : FS)
  | ioError (fs : FS)
  | completed (iacType : String) (fs : FS)
deriving DecidableEq, Repr

/-- The filesystem state carried by a `RunResult`. -/
def RunResult.fs : RunResult → FS
  | .exited _ f => f
  | .ioError f => f
  | .completed _ f => f

/-- `main` (lines 184-213; Lean reserves the name `main` for executables).
`git_commit` only shells out to git and does not change the workspace content
model, so it is not represented. -/
def mainRun (code_path : String) (fs : FS) : RunResult :=
  if check_existing_config code_path fs then .exited 0 fs
  else
    let interesting_files := search_for_iac code_path fs
    match check_iac_type interesting_files code_path fs with
    | .error e => .exited e.1 fs
    | .ok scan_type =>
      let fs1 := configure_dirs code_path fs
      let res :=
        if scan_type = "tf" then configure_tf false code_path fs1
        else if scan_type = "cfm" then configure_cfm code_path fs1
        else if scan_type = "none" then configure_tf true code_path fs1
        else .ok fs1
      match res with
      | .error fsE => .ioError fsE
      | .ok fs2 => .completed scan_type fs2

instance {e a : Type} [DecidableEq e] [DecidableEq a] : DecidableEq (Except e a) := fun x y =>
  match x, y with
  | .ok u, .ok v =>
    if h : u = v then .isTrue (by rw [h]) else .isFalse (by intro hc; cases hc; exact h rfl)
  | .error u, .error v =>
    if h : u = v then .isTrue (by rw [h]) else .isFalse (by intro hc; cases hc; exact h rfl)
  | .ok _, .error _ => .isFalse (by intro hc; cases hc)
  | .error _, .ok _ => .isFalse (by intro hc; cases hc)

/-! ## Helper lemmas: strings as paths -/

theorem str_data_inj {a b : String} (h : a.data = b.data) : a = b := by
  cases a; cases b; exact congrArg String.mk h

theorem append_right_ne {a b : String} (p : String) (h : a ≠ b) : p ++ a ≠ p ++ b := by
  intro hc
  have h2 := congrArg String.data hc
  simp only [String.data_append] at h2
  exact h (str_data_inj (List.append_cancel_left h2))

theorem append_ne_of_endsWith_false {x z : String} (p : String)
    (h : strEndsWith z x = false) : p ++ x ≠ z := by
  intro hc
  have hsuf : x.data <:+ z.data := by
    rw [← hc, String.data_append]
    exact List.suffix_append _ _
  have : strEndsWith z x = true := by
    simpa [strEndsWith] using hsuf
  rw [h] at this
  exact Bool.false_ne_true this

theorem strEndsWith_append_of (a b x : String) (h : strEndsWith b x = true) :
    strEndsWith (a ++ b) x = true := by
  simp only [strEndsWith, String.data_append] at h ⊢
  have hsuf : x.data <:+ b.data := by simpa using h
  simpa using hsuf.trans (List.suffix_append _ _)

theorem pyLower_append (a b : String) : pyLower (a ++ b) = pyLower a ++ pyLower b := by
  apply str_data_inj
  simp [pyLower, String.data_append]

/-! ## Helper lemmas: the filesystem model -/

theorem assocFind_eraseKey_self (p : String) (l : List (String × String)) :
    assocFind p (eraseKey p l) = none := by
  induction l with
  | nil => rfl
  | cons e l ih =>
    obtain ⟨k, v⟩ := e
    by_cases he : k = p
    · simpa [eraseKey, he] using ih
    · simpa [eraseKey, he, assocFind] using ih

theorem assocFind_eraseKey_ne (p q : String) (l : List (String × String)) (h : q ≠ p) :
    assocFind q (eraseKey p l) = assocFind q l := by
  induction l with
  | nil => rfl
  | cons e l ih =>
    obtain ⟨k, v⟩ := e
    by_cases he : k = p
    · have hq : ¬ k = q := fun hk => h (by rw [← hk, he])
      have hpq : ¬ p = q := fun hk => h hk.symm
      simp [eraseKey, he, assocFind, hq, hpq, ih]
    · by_cases hk : k = q
      · simp [eraseKey, he, assocFind, hk, h, ih]
      · simp [eraseKey, he, assocFind, hk, ih]

theorem assocFind_writeFile_self (fs : FS) (p c : String) :
    assocFind p (writeFile fs p c).files = some c := by
  simp [writeFile, assocFind]

theorem assocFind_writeFile_ne (fs : FS) (p c q : String) (h : q ≠ p) :
    assocFind q (writeFile fs p c).files = assocFind q fs.files := by
  have hpq : ¬ p = q := fun hk => h hk.symm
  simp only [writeFile, assocFind, hpq, if_false]
  exact assocFind_eraseKey_ne p q fs.files h

theorem assocFind_removeFile_self (fs : FS) (p : String) :
    assocFind p (removeFile fs p).files = none := by
  simpa [removeFile] using assocFind_eraseKey_self p fs.files

theorem assocFind_removeFile_ne (fs : FS) (p q : String) (h : q ≠ p) :
    assocFind q (removeFile fs p).files = assocFind q fs.files := by
  simpa [removeFile] using assocFind_eraseKey_ne p q fs.files h

theorem isfile_writeFile_self (fs : FS) (p c : String) :
    isfile (writeFile fs p c) p = true := by
  simp [isfile, assocFind_writeFile_self]

theorem isfile_writeFile_ne (fs : FS) (p c q : String) (h : q ≠ p) :
    isfile (writeFile fs p c) q = isfile fs q := by
  simp [isfile, assocFind_writeFile_ne fs p c q h]

theorem readFile_writeFile_self (fs : FS) (p c : String) :
    readFile (writeFile fs p c) p = c := by
  simp [readFile, assocFind_writeFile_self]

theorem readFile_writeFile_ne (fs : FS) (p c q : String) (h : q ≠ p) :
    readFile (writeFile fs p c) q = readFile fs q := by
  simp [readFile, assocFind_writeFile_ne fs p c q h]

theorem isfile_removeFile_self (fs : FS) (p : String) :
    isfile (removeFile fs p) p = false := by
  simp [isfile, assocFind_removeFile_self]

theorem isfile_removeFile_ne (fs : FS) (p q : String) (h : q ≠ p) :
    isfile (removeFile fs p) q = isfile fs q := by
  simp [isfile, assocFind_removeFile_ne fs p q h]

theorem readFile_removeFile_ne (fs : FS) (p q : String) (h : q ≠ p) :
    readFile (removeFile fs p) q = readFile fs q := by
  simp [readFile, assocFind_removeFile_ne fs p q h]

theorem files_configure_dirs (code_path : String) (fs : FS) :
    (configure_dirs code_path fs).files = fs.files := by
  simp only [configure_dirs, mkdirs]
  split <;> split <;> rfl

theorem isdir_mkdirs_ne (fs : FS) (d q : String) (h : q ≠ d) :
    isdir (mkdirs fs d) q = isdir fs q := by
  simp [isdir, mkdirs, Ne.symm h]

theorem isdir_configure_dirs_ne (code_path : String) (fs : FS) (q : String)
    (h1 : q ≠ code_path ++ "/.prismaCloud") (h2 : q ≠ code_path ++ "/.github") :
    isdir (configure_dirs code_path fs) q = isdir fs q := by
  simp only [configure_dirs]
  cases h3 : pathExists fs (code_path ++ "/.prismaCloud") with
  | false =>
    rw [if_neg Bool.false_ne_true]
    cases h4 : pathExists (mkdirs fs (code_path ++ "/.prismaCloud"))
        (code_path ++ "/.github") with
    | false =>
      rw [if_neg Bool.false_ne_true, isdir_mkdirs_ne _ _ q h2, isdir_mkdirs_ne _ _ q h1]
    | true =>
      rw [if_pos rfl]
      exact isdir_mkdirs_ne _ _ q h1
  | true =>
    rw [if_pos rfl]
    cases h5 : pathExists fs (code_path ++ "/.github") with
    | false =>
      rw [if_neg Bool.false_ne_true]
      exact isdir_mkdirs_ne _ _ q h2
    | true => rw [if_pos rfl]

/-! ## The counting loop and the classification policy -/

theorem iacCounts_eq (fs : FS) (ts : List String) (a b : Nat) :
    iacCounts fs ts a b = (a + ts.countP tfTarget, b + ts.countP (cfmTarget fs)) := by
  induction ts generalizing a b with
  | nil => simp [iacCounts]
  | cons t ts ih =>
    simp only [iacCounts, List.countP_cons]
    rw [ih]
    cases h1 : tfTarget t <;> cases h2 : cfmTarget fs t <;> simp [h1, h2] <;> omega

/-- The classification policy of `check_iac_type` as a function of the two
final counter values and the placeholder presence bit (proof device for
case analysis). -/
def classify (count_tf count_cfm : Nat) (dummy : Bool) : Except (Nat × String) String :=
  if count_tf > 0 ∧ count_cfm > 0 ∧ ¬ dummy = true then
    .error (1, "CFM and TF in the same repo. Run away, run away!")
  else if count_tf > 1 ∧ count_cfm > 0 ∧ dummy = true then
    .error (1, "CFM and TF in the same repo after having none before \nas evidenced by file \x27dummy.tf\x27. Run away, run away!")
  else if count_tf = 0 ∧ count_cfm = 0 then .ok "none"
  else if count_tf = 1 ∧ count_cfm > 0 ∧ dummy = true then .ok "cfm"
  else if count_tf > 0 ∧ count_cfm = 0 then .ok "tf"
  else if count_cfm > 0 ∧ count_tf = 0 then .ok "cfm"
  else .ok "none"

theorem check_iac_type_eq_classify (targets : List String) (code_path : String) (fs : FS) :
    check_iac_type targets code_path fs =
      classify (targets.countP tfTarget) (targets.countP (cfmTarget fs))
        (isfile fs (code_path ++ "/dummy.tf")) := by
  simp only [check_iac_type, classify, iacCounts_eq, Nat.zero_add]

theorem classify_cfm_override (ctf ccfm : Nat) (h1 : ctf = 1) (h2 : 0 < ccfm) :
    classify ctf ccfm true = .ok "cfm" := by
  subst h1
  simp [classify, h2, Nat.lt_irrefl]

theorem classify_conflict_no_dummy (ctf ccfm : Nat) (h1 : 0 < ctf) (h2 : 0 < ccfm) :
    classify ctf ccfm false =
      .error (1, "CFM and TF in the same repo. Run away, run away!") := by
  simp [classify, h1, h2]

theorem classify_conflict_dummy (ctf ccfm : Nat) (h1 : 1 < ctf) (h2 : 0 < ccfm) :
    classify ctf ccfm true =
      .error (1, "CFM and TF in the same repo after having none before \nas evidenced by file \x27dummy.tf\x27. Run away, run away!") := by
  simp [classify, h1, h2]

theorem classify_none (ccfm : Nat) (dummy : Bool) (h : ccfm = 0) :
    classify 0 ccfm dummy = .ok "none" := by
  subst h
  simp [classify]

theorem classify_tf (ctf ccfm : Nat) (dummy : Bool) (h1 : 0 < ctf) (h2 : ccfm = 0) :
    classify ctf ccfm dummy = .ok "tf" := by
  subst h2
  simp [classify, h1, Nat.pos_iff_ne_zero.mp h1]

theorem classify_cfm (ctf ccfm : Nat) (dummy : Bool) (h1 : ctf = 0) (h2 : 0 < ccfm) :
    classify ctf ccfm dummy = .ok "cfm" := by
  subst h1
  cases dummy <;> simp [classify, h2, Nat.pos_iff_ne_zero.mp h2]

/-! ## Claims about the classifier -/

/-- C1: for every candidate list and workspace where the Terraform counter is
exactly 1, the CloudFormation counter is positive, and the placeholder
`dummy.tf` exists at the workspace root, `check_iac_type` returns `"cfm"`. -/
theorem spec_C1_lone_tf_with_placeholder_is_cfm
    (targets : List String) (code_path : String) (fs : FS)
    (h1 : (iacCounts fs targets 0 0).1 = 1)
    (h2 : 0 < (iacCounts fs targets 0 0).2)
    (hd : isfile fs (code_path ++ "/dummy.tf") = true) :
    check_iac_type targets code_path fs = .ok "cfm" := by
  rw [iacCounts_eq] at h1 h2
  rw [check_iac_type_eq_classify, hd]
  exact classify_cfm_override _ _ (by simpa using h1) (by simpa using h2)

/-- C1 witness: a workspace holding exactly the placeholder and one
CloudFormation template. -/
theorem spec_C1_witness :
    (iacCounts (FS.mk [("/w/dummy.tf", ""), ("/w/t.yaml", "AWSTemplateFormatVersion: 1")] [])
        ["/w/dummy.tf", "/w/t.yaml"] 0 0).1 = 1 ∧
    0 < (iacCounts (FS.mk [("/w/dummy.tf", ""), ("/w/t.yaml", "AWSTemplateFormatVersion: 1")] [])
        ["/w/dummy.tf", "/w/t.yaml"] 0 0).2 ∧
    isfile (FS.mk [("/w/dummy.tf", ""), ("/w/t.yaml", "AWSTemplateFormatVersion: 1")] [])
        ("/w" ++ "/dummy.tf") = true ∧
    check_iac_type ["/w/dummy.tf", "/w/t.yaml"] "/w"
        (FS.mk [("/w/dummy.tf", ""), ("/w/t.yaml", "AWSTemplateFormatVersion: 1")] []) =
      .ok "cfm" :=
  ⟨by decide, by decide, by decide,
    spec_C1_lone_tf_with_placeholder_is_cfm _ "/w" _ (by decide) (by decide) (by decide)⟩

/-- C2: whenever both counters are positive and either no placeholder exists,
or the placeholder exists and the Terraform counter exceeds 1,
`check_iac_type` terminates the process with exit status 1 after printing one
of the two conflict diagnostics. -/
theorem spec_C2_mixed_iac_exits_nonzero
    (targets : List String) (code_path : String) (fs : FS)
    (h1 : 0 < (iacCounts fs targets 0 0).1)
    (h2 : 0 < (iacCounts fs targets 0 0).2)
    (h3 : isfile fs (code_path ++ "/dummy.tf") = false ∨
      (isfile fs (code_path ++ "/dummy.tf") = true ∧ 1 < (iacCounts fs targets 0 0).1)) :
    check_iac_type targets code_path fs =
        .error (1, "CFM and TF in the same repo. Run away, run away!") ∨
      check_iac_type targets code_path fs =
        .error (1, "CFM and TF in the same repo after having none before \nas evidenced by file \x27dummy.tf\x27. Run away, run away!") := by
  rw [iacCounts_eq] at h1 h2
  rcases h3 with hd | ⟨hd, hgt⟩
  · rw [check_iac_type_eq_classify, hd]
    exact Or.inl (classify_conflict_no_dummy _ _ (by simpa using h1) (by simpa using h2))
  · rw [iacCounts_eq] at hgt
    rw [check_iac_type_eq_classify, hd]
    exact Or.inr (classify_conflict_dummy _ _ (by simpa using hgt) (by simpa using h2))

/-- C2 witness: one real Terraform file and one CloudFormation template, no
placeholder. -/
theorem spec_C2_witness :
    0 < (iacCounts (FS.mk [("/w/a.tf", "x"), ("/w/t.yaml", "AWSTemplateFormatVersion: 1")] [])
        ["/w/a.tf", "/w/t.yaml"] 0 0).1 ∧
    0 < (iacCounts (FS.mk [("/w/a.tf", "x"), ("/w/t.yaml", "AWSTemplateFormatVersion: 1")] [])
        ["/w/a.tf", "/w/t.yaml"] 0 0).2 ∧
    isfile (FS.mk [("/w/a.tf", "x"), ("/w/t.yaml", "AWSTemplateFormatVersion: 1")] [])
        ("/w" ++ "/dummy.tf") = false ∧
    (check_iac_type ["/w/a.tf", "/w/t.yaml"] "/w"
        (FS.mk [("/w/a.tf", "x"), ("/w/t.yaml", "AWSTemplateFormatVersion: 1")] []) =
        .error (1, "CFM and TF in the same repo. Run away, run away!") ∨
      check_iac_type ["/w/a.tf", "/w/t.yaml"] "/w"
        (FS.mk [("/w/a.tf", "x"), ("/w/t.yaml", "AWSTemplateFormatVersion: 1")] []) =
        .error (1, "CFM and TF in the same repo after having none before \nas evidenced by file \x27dummy.tf\x27. Run away, run away!")) :=
  ⟨by decide, by decide, by decide,
    spec_C2_mixed_iac_exits_nonzero _ "/w" _ (by decide) (by decide) (Or.inl (by decide))⟩

/-- C4: on every candidate list and workspace on which `check_iac_type`
returns, both counters zero yields `"none"`, a positive Terraform counter
with zero CloudFormation counter yields `"tf"`, and a positive CloudFormation
counter with zero Terraform counter yields `"cfm"`. -/
theorem spec_C4_pure_classifications
    (targets : List String) (code_path : String) (fs : FS) :
    ((iacCounts fs targets 0 0).1 = 0 → (iacCounts fs targets 0 0).2 = 0 →
      check_iac_type targets code_path fs = .ok "none") ∧
    (0 < (iacCounts fs targets 0 0).1 → (iacCounts fs targets 0 0).2 = 0 →
      check_iac_type targets code_path fs = .ok "tf") ∧
    (0 < (iacCounts fs targets 0 0).2 → (iacCounts fs targets 0 0).1 = 0 →
      check_iac_type targets code_path fs = .ok "cfm") := by
  refine ⟨fun h1 h2 => ?_, fun h1 h2 => ?_, fun h1 h2 => ?_⟩ <;>
    rw [iacCounts_eq] at h1 h2 <;> rw [check_iac_type_eq_classify]
  · rw [show targets.countP tfTarget = 0 by simpa using h1]
    exact classify_none _ _ (by simpa using h2)
  · exact classify_tf _ _ _ (by simpa using h1) (by simpa using h2)
  · exact classify_cfm _ _ _ (by simpa using h2) (by simpa using h1)

/-- C4 witness: the three pure cases on concrete one-file workspaces. -/
theorem spec_C4_witness :
    check_iac_type [] "/w" (FS.mk [] []) = .ok "none" ∧
    check_iac_type ["/w/a.tf"] "/w" (FS.mk [("/w/a.tf", "x")] []) = .ok "tf" ∧
    check_iac_type ["/w/t.yaml"] "/w"
      (FS.mk [("/w/t.yaml", "AWSTemplateFormatVersion: 1")] []) = .ok "cfm" :=
  ⟨(spec_C4_pure_classifications [] "/w" (FS.mk [] [])).1 (by decide) (by decide),
    (spec_C4_pure_classifications ["/w/a.tf"] "/w" (FS.mk [("/w/a.tf", "x")] [])).2.1
      (by decide) (by decide),
    (spec_C4_pure_classifications ["/w/t.yaml"] "/w"
      (FS.mk [("/w/t.yaml", "AWSTemplateFormatVersion: 1")] [])).2.2 (by decide) (by decide)⟩

/-- C5: the Terraform counter of the counting loop equals the number of
candidates whose lower-cased name ends in `.tf`, and the CloudFormation
counter equals the number of candidates whose lower-cased name ends in
`.json`, `.yaml` or `.yml` and whose content contains
`AWSTemplateFormatVersion`. -/
theorem spec_C5_counters_count_matching_candidates
    (fs : FS) (targets : List String) :
    iacCounts fs targets 0 0 =
      (targets.countP (fun t => strEndsWith (pyLower t) ".tf"),
       targets.countP (fun t =>
        (strEndsWith (pyLower t) ".json" || strEndsWith (pyLower t) ".yaml" ||
          strEndsWith (pyLower t) ".yml") &&
        strContains (readFile fs t) "AWSTemplateFormatVersion")) := by
  rw [iacCounts_eq]
  simp only [Nat.zero_add]
  rfl

theorem classify_error_code (ctf ccfm : Nat) (d : Bool) (e : Nat × String)
    (h : classify ctf ccfm d = .error e) : e.1 = 1 := by
  unfold classify at h
  split_ifs at h <;> injection h with h2 <;> rw [← h2]

theorem check_iac_type_error_code (targets : List String) (code_path : String) (fs : FS)
    (e : Nat × String) (h : check_iac_type targets code_path fs = .error e) : e.1 = 1 := by
  rw [check_iac_type_eq_classify] at h
  exact classify_error_code _ _ _ _ h

/-! ## Claims about `main` -/

/-- C3: when the run terminates because a mixed-IAC conflict is detected, the
process exits with status 1 and the workspace is unchanged: no directory is
created, no template copied, and the placeholder neither created nor
deleted. -/
theorem spec_C3_conflict_exit_writes_nothing
    (code_path : String) (fs : FS) (e : Nat × String)
    (hcfg : check_existing_config code_path fs = false)
    (hconf : check_iac_type (search_for_iac code_path fs) code_path fs = .error e) :
    mainRun code_path fs = .exited 1 fs := by
  have he : e.1 = 1 := check_iac_type_error_code _ _ _ _ hconf
  simp only [mainRun, hcfg, Bool.false_eq_true, if_false, hconf]
  rw [he]

/-- C3 witness: a mixed workspace with one `.tf` file, one CloudFormation
template and no placeholder. -/
theorem spec_C3_witness :
    check_existing_config "/w"
      (FS.mk [("/w/a.tf", "x"), ("/w/t.yaml", "AWSTemplateFormatVersion: 1")] []) = false ∧
    check_iac_type
      (search_for_iac "/w"
        (FS.mk [("/w/a.tf", "x"), ("/w/t.yaml", "AWSTemplateFormatVersion: 1")] []))
      "/w" (FS.mk [("/w/a.tf", "x"), ("/w/t.yaml", "AWSTemplateFormatVersion: 1")] []) =
      .error (1, "CFM and TF in the same repo. Run away, run away!") ∧
    mainRun "/w" (FS.mk [("/w/a.tf", "x"), ("/w/t.yaml", "AWSTemplateFormatVersion: 1")] []) =
      .exited 1 (FS.mk [("/w/a.tf", "x"), ("/w/t.yaml", "AWSTemplateFormatVersion: 1")] []) :=
  ⟨by decide, by decide,
    spec_C3_conflict_exit_writes_nothing "/w"
      (FS.mk [("/w/a.tf", "x"), ("/w/t.yaml", "AWSTemplateFormatVersion: 1")] [])
      (1, "CFM and TF in the same repo. Run away, run away!") (by decide) (by decide)⟩

/-- C6: `check_existing_config` returns true exactly when one of the two
config files exists and the placeholder does not; and when it returns true,
`main` exits with status 0 with the workspace untouched (an idempotent
no-op second run). -/
theorem spec_C6_existing_config_noop (code_path : String) (fs : FS) :
    (check_existing_config code_path fs = true ↔
      ((isfile fs (code_path ++ "/.prismaCloud/config.yml") = true ∨
        isfile fs (code_path ++ "/.github/prisma-cloud-config.yml") = true) ∧
       isfile fs (code_path ++ "/dummy.tf") = false)) ∧
    (check_existing_config code_path fs = true →
      mainRun code_path fs = .exited 0 fs) := by
  constructor
  · unfold check_existing_config
    cases h1 : isfile fs (code_path ++ "/.prismaCloud/config.yml") <;>
      cases h2 : isfile fs (code_path ++ "/.github/prisma-cloud-config.yml") <;>
      cases h3 : isfile fs (code_path ++ "/dummy.tf") <;> simp [h1, h2, h3]
  · intro h
    simp [mainRun, h]

/-- C6 witness: a workspace that already has the scanner config and no
placeholder. -/
theorem spec_C6_witness :
    check_existing_config "/w" (FS.mk [("/w/.prismaCloud/config.yml", "cfg")] []) = true ∧
    mainRun "/w" (FS.mk [("/w/.prismaCloud/config.yml", "cfg")] []) =
      .exited 0 (FS.mk [("/w/.prismaCloud/config.yml", "cfg")] []) :=
  ⟨by decide,
    (spec_C6_existing_config_noop "/w" (FS.mk [("/w/.prismaCloud/config.yml", "cfg")] [])).2
      (by decide)⟩

/-! ## Helper lemmas: placeholder lifecycle and template copies -/

theorem isfile_touchFile_ne (fs : FS) (p q : String) (h : q ≠ p) :
    isfile (touchFile fs p) q = isfile fs q := by
  unfold touchFile
  split
  · rfl
  · exact isfile_writeFile_ne fs p "" q h

theorem readFile_touchFile_ne (fs : FS) (p q : String) (h : q ≠ p) :
    readFile (touchFile fs p) q = readFile fs q := by
  unfold touchFile
  split
  · rfl
  · exact readFile_writeFile_ne fs p "" q h

theorem isfile_touchFile_self (fs : FS) (p : String) (h : isdir fs p = false) :
    isfile (touchFile fs p) p = true := by
  unfold touchFile
  cases hf : isfile fs p with
  | false =>
    rw [if_neg (by simp [pathExists, hf, h])]
    exact isfile_writeFile_self fs p ""
  | true => rw [if_pos (by simp [pathExists, hf])]; exact hf

theorem touchFile_of_isfile (fs : FS) (p : String) (h : isfile fs p = true) :
    touchFile fs p = fs := by
  unfold touchFile
  rw [if_pos (by simp [pathExists, h])]

theorem copyfile_ok (src dst : String) (fs : FS) (h : isfile fs src = true) :
    copyfile src dst fs = .ok (writeFile fs dst (readFile fs src)) := by
  simp [copyfile, h]

theorem isfile_dummy_step (fs : FS) (p : String) :
    isfile (if pathExists fs p then removeFile fs p else fs) p = false := by
  split
  · exact isfile_removeFile_self fs p
  · next h =>
    cases hf : isfile fs p with
    | false => rfl
    | true => exact absurd (by simp [pathExists, hf]) h

theorem isfile_dummy_step_ne (fs : FS) (p q : String) (h : q ≠ p) :
    isfile (if pathExists fs p then removeFile fs p else fs) q = isfile fs q := by
  split
  · exact isfile_removeFile_ne fs p q h
  · rfl

theorem readFile_dummy_step_ne (fs : FS) (p q : String) (h : q ≠ p) :
    readFile (if pathExists fs p then removeFile fs p else fs) q = readFile fs q := by
  split
  · exact readFile_removeFile_ne fs p q h
  · rfl

theorem isfile_configure_dirs (code_path : String) (fs : FS) (p : String) :
    isfile (configure_dirs code_path fs) p = isfile fs p := by
  simp [isfile, files_configure_dirs]

theorem readFile_configure_dirs (code_path : String) (fs : FS) (p : String) :
    readFile (configure_dirs code_path fs) p = readFile fs p := by
  simp [readFile, files_configure_dirs]

/-- The state carried by an `Except FS FS` outcome. -/
def exceptFS : Except FS FS → FS
  | .ok f => f
  | .error f => f

theorem configure_tf_dummy_spec (cp : String) (fsX : FS)
    (ht1 : isfile fsX "/config-tf.yml" = true)
    (ht2 : isfile fsX "/prisma-cloud-config.yml" = true) :
    configure_tf true cp fsX =
      .ok (writeFile
        (writeFile (touchFile fsX (cp ++ "/dummy.tf"))
          (cp ++ "/.prismaCloud/config.yml") (readFile fsX "/config-tf.yml"))
        (cp ++ "/.github/prisma-cloud-config.yml")
        (readFile fsX "/prisma-cloud-config.yml")) := by
  have ht1_d : ("/config-tf.yml" : String) ≠ cp ++ "/dummy.tf" :=
    (append_ne_of_endsWith_false cp (by decide)).symm
  have ht2_d : ("/prisma-cloud-config.yml" : String) ≠ cp ++ "/dummy.tf" :=
    (append_ne_of_endsWith_false cp (by decide)).symm
  have ht2_pc : ("/prisma-cloud-config.yml" : String) ≠ cp ++ "/.prismaCloud/config.yml" :=
    (append_ne_of_endsWith_false cp (by decide)).symm
  have hT1 : isfile (touchFile fsX (cp ++ "/dummy.tf")) "/config-tf.yml" = true := by
    rw [isfile_touchFile_ne _ _ _ ht1_d]; exact ht1
  have hR1 : readFile (touchFile fsX (cp ++ "/dummy.tf")) "/config-tf.yml" =
      readFile fsX "/config-tf.yml" := readFile_touchFile_ne _ _ _ ht1_d
  have hT2 : isfile (writeFile (touchFile fsX (cp ++ "/dummy.tf"))
      (cp ++ "/.prismaCloud/config.yml") (readFile fsX "/config-tf.yml"))
      "/prisma-cloud-config.yml" = true := by
    rw [isfile_writeFile_ne _ _ _ _ ht2_pc, isfile_touchFile_ne _ _ _ ht2_d]; exact ht2
  have hR2 : readFile (writeFile (touchFile fsX (cp ++ "/dummy.tf"))
      (cp ++ "/.prismaCloud/config.yml") (readFile fsX "/config-tf.yml"))
      "/prisma-cloud-config.yml" = readFile fsX "/prisma-cloud-config.yml" := by
    rw [readFile_writeFile_ne _ _ _ _ ht2_pc, readFile_touchFile_ne _ _ _ ht2_d]
  simp only [configure_tf, if_true]
  rw [copyfile_ok _ _ _ hT1, hR1]
  simp only [Except.bind]
  rw [copyfile_ok _ _ _ hT2, hR2]

theorem configure_tf_real_spec (cp : String) (fsX : FS)
    (ht1 : isfile fsX "/config-tf.yml" = true)
    (ht2 : isfile fsX "/prisma-cloud-config.yml" = true) :
    configure_tf false cp fsX =
      .ok (writeFile
        (writeFile (if pathExists fsX (cp ++ "/dummy.tf") then
            removeFile fsX (cp ++ "/dummy.tf") else fsX)
          (cp ++ "/.prismaCloud/config.yml") (readFile fsX "/config-tf.yml"))
        (cp ++ "/.github/prisma-cloud-config.yml")
        (readFile fsX "/prisma-cloud-config.yml")) := by
  have ht1_d : ("/config-tf.yml" : String) ≠ cp ++ "/dummy.tf" :=
    (append_ne_of_endsWith_false cp (by decide)).symm
  have ht2_d : ("/prisma-cloud-config.yml" : String) ≠ cp ++ "/dummy.tf" :=
    (append_ne_of_endsWith_false cp (by decide)).symm
  have ht2_pc : ("/prisma-cloud-config.yml" : String) ≠ cp ++ "/.prismaCloud/config.yml" :=
    (append_ne_of_endsWith_false cp (by decide)).symm
  have hT1 : isfile (if pathExists fsX (cp ++ "/dummy.tf") then
      removeFile fsX (cp ++ "/dummy.tf") else fsX) "/config-tf.yml" = true := by
    rw [isfile_dummy_step_ne _ _ _ ht1_d]; exact ht1
  have hR1 : readFile (if pathExists fsX (cp ++ "/dummy.tf") then
      removeFile fsX (cp ++ "/dummy.tf") else fsX) "/config-tf.yml" =
      readFile fsX "/config-tf.yml" := readFile_dummy_step_ne _ _ _ ht1_d
  have hT2 : isfile (writeFile (if pathExists fsX (cp ++ "/dummy.tf") then
      removeFile fsX (cp ++ "/dummy.tf") else fsX)
      (cp ++ "/.prismaCloud/config.yml") (readFile fsX "/config-tf.yml"))
      "/prisma-cloud-config.yml" = true := by
    rw [isfile_writeFile_ne _ _ _ _ ht2_pc, isfile_dummy_step_ne _ _ _ ht2_d]; exact ht2
  have hR2 : readFile (writeFile (if pathExists fsX (cp ++ "/dummy.tf") then
      removeFile fsX (cp ++ "/dummy.tf") else fsX)
      (cp ++ "/.prismaCloud/config.yml") (readFile fsX "/config-tf.yml"))
      "/prisma-cloud-config.yml" = readFile fsX "/prisma-cloud-config.yml" := by
    rw [readFile_writeFile_ne _ _ _ _ ht2_pc, readFile_dummy_step_ne _ _ _ ht2_d]
  simp only [configure_tf]
  rw [if_neg Bool.false_ne_true]
  rw [copyfile_ok _ _ _ hT1, hR1]
  simp only [Except.bind]
  rw [copyfile_ok _ _ _ hT2, hR2]

theorem configure_cfm_spec (cp : String) (fsX : FS)
    (ht3 : isfile fsX "/config-cfm.yml" = true)
    (ht2 : isfile fsX "/prisma-cloud-config.yml" = true) :
    configure_cfm cp fsX =
      .ok (writeFile
        (writeFile (if pathExists fsX (cp ++ "/dummy.tf") then
            removeFile fsX (cp ++ "/dummy.tf") else fsX)
          (cp ++ "/.prismaCloud/config.yml") (readFile fsX "/config-cfm.yml"))
        (cp ++ "/.github/prisma-cloud-config.yml")
        (readFile fsX "/prisma-cloud-config.yml")) := by
  have ht3_d : ("/config-cfm.yml" : String) ≠ cp ++ "/dummy.tf" :=
    (append_ne_of_endsWith_false cp (by decide)).symm
  have ht2_d : ("/prisma-cloud-config.yml" : String) ≠ cp ++ "/dummy.tf" :=
    (append_ne_of_endsWith_false cp (by decide)).symm
  have ht2_pc : ("/prisma-cloud-config.yml" : String) ≠ cp ++ "/.prismaCloud/config.yml" :=
    (append_ne_of_endsWith_false cp (by decide)).symm
  have hT3 : isfile (if pathExists fsX (cp ++ "/dummy.tf") then
      removeFile fsX (cp ++ "/dummy.tf") else fsX) "/config-cfm.yml" = true := by
    rw [isfile_dummy_step_ne _ _ _ ht3_d]; exact ht3
  have hR3 : readFile (if pathExists fsX (cp ++ "/dummy.tf") then
      removeFile fsX (cp ++ "/dummy.tf") else fsX) "/config-cfm.yml" =
      readFile fsX "/config-cfm.yml" := readFile_dummy_step_ne _ _ _ ht3_d
  have hT2 : isfile (writeFile (if pathExists fsX (cp ++ "/dummy.tf") then
      removeFile fsX (cp ++ "/dummy.tf") else fsX)
      (cp ++ "/.prismaCloud/config.yml") (readFile fsX "/config-cfm.yml"))
      "/prisma-cloud-config.yml" = true := by
    rw [isfile_writeFile_ne _ _ _ _ ht2_pc, isfile_dummy_step_ne _ _ _ ht2_d]; exact ht2
  have hR2 : readFile (writeFile (if pathExists fsX (cp ++ "/dummy.tf") then
      removeFile fsX (cp ++ "/dummy.tf") else fsX)
      (cp ++ "/.prismaCloud/config.yml") (readFile fsX "/config-cfm.yml"))
      "/prisma-cloud-config.yml" = readFile fsX "/prisma-cloud-config.yml" := by
    rw [readFile_writeFile_ne _ _ _ _ ht2_pc, readFile_dummy_step_ne _ _ _ ht2_d]
  simp only [configure_cfm]
  rw [copyfile_ok _ _ _ hT3, hR3]
  simp only [Except.bind]
  rw [copyfile_ok _ _ _ hT2, hR2]

/-! ## Claims about the configuration writers -/

/-- C7: on a workspace classified `none`, the run completes, the placeholder
`dummy.tf` exists afterwards (a pre-existing one is preserved, content and
all), and the Terraform scanner template and the shared pipeline-config
template are copied into their two fixed locations. -/
theorem spec_C7_none_creates_placeholder_and_copies
    (code_path : String) (fs : FS)
    (hcfg : check_existing_config code_path fs = false)
    (hnone : check_iac_type (search_for_iac code_path fs) code_path fs = .ok "none")
    (ht1 : isfile fs "/config-tf.yml" = true)
    (ht2 : isfile fs "/prisma-cloud-config.yml" = true)
    (hnd : isdir fs (code_path ++ "/dummy.tf") = false) :
    mainRun code_path fs = .completed "none" (mainRun code_path fs).fs ∧
    isfile (mainRun code_path fs).fs (code_path ++ "/dummy.tf") = true ∧
    (isfile fs (code_path ++ "/dummy.tf") = true →
      assocFind (code_path ++ "/dummy.tf") (mainRun code_path fs).fs.files =
        assocFind (code_path ++ "/dummy.tf") fs.files) ∧
    readFile (mainRun code_path fs).fs (code_path ++ "/.prismaCloud/config.yml") =
      readFile fs "/config-tf.yml" ∧
    readFile (mainRun code_path fs).fs (code_path ++ "/.github/prisma-cloud-config.yml") =
      readFile fs "/prisma-cloud-config.yml" := by
  have hd_pc : code_path ++ "/dummy.tf" ≠ code_path ++ "/.prismaCloud/config.yml" :=
    append_right_ne code_path (by decide)
  have hd_gh : code_path ++ "/dummy.tf" ≠ code_path ++ "/.github/prisma-cloud-config.yml" :=
    append_right_ne code_path (by decide)
  have hpc_gh : code_path ++ "/.prismaCloud/config.yml" ≠
      code_path ++ "/.github/prisma-cloud-config.yml" :=
    append_right_ne code_path (by decide)
  have hd_dp : code_path ++ "/dummy.tf" ≠ code_path ++ "/.prismaCloud" :=
    append_right_ne code_path (by decide)
  have hd_dg : code_path ++ "/dummy.tf" ≠ code_path ++ "/.github" :=
    append_right_ne code_path (by decide)
  have hdum1 : isdir (configure_dirs code_path fs) (code_path ++ "/dummy.tf") = false := by
    rw [isdir_configure_dirs_ne code_path fs _ hd_dp hd_dg]; exact hnd
  have hspec := configure_tf_dummy_spec code_path (configure_dirs code_path fs)
    (by rw [isfile_configure_dirs]; exact ht1)
    (by rw [isfile_configure_dirs]; exact ht2)
  have hmain : mainRun code_path fs =
      .completed "none" (writeFile
        (writeFile (touchFile (configure_dirs code_path fs) (code_path ++ "/dummy.tf"))
          (code_path ++ "/.prismaCloud/config.yml")
          (readFile (configure_dirs code_path fs) "/config-tf.yml"))
        (code_path ++ "/.github/prisma-cloud-config.yml")
        (readFile (configure_dirs code_path fs) "/prisma-cloud-config.yml")) := by
    simp only [mainRun, hcfg, Bool.false_eq_true, if_false, hnone,
      eq_false (by decide : ¬ ("none" : String) = "tf"),
      eq_false (by decide : ¬ ("none" : String) = "cfm"),
      eq_self_iff_true, if_true]
    rw [hspec]
  rw [hmain]
  simp only [RunResult.fs]
  refine ⟨by trivial, ?_, ?_, ?_, ?_⟩
  · rw [isfile_writeFile_ne _ _ _ _ hd_gh, isfile_writeFile_ne _ _ _ _ hd_pc]
    exact isfile_touchFile_self _ _ hdum1
  · intro h
    rw [assocFind_writeFile_ne _ _ _ _ hd_gh, assocFind_writeFile_ne _ _ _ _ hd_pc,
      touchFile_of_isfile _ _ (by rw [isfile_configure_dirs]; exact h),
      files_configure_dirs]
  · rw [readFile_writeFile_ne _ _ _ _ hpc_gh, readFile_writeFile_self,
      readFile_configure_dirs]
  · rw [readFile_writeFile_self, readFile_configure_dirs]

/-- C7 witness: an empty workspace with the two template sources available. -/
theorem spec_C7_witness :
    check_existing_config "/w"
      (FS.mk [("/config-tf.yml", "TF"), ("/prisma-cloud-config.yml", "SH")] []) = false ∧
    check_iac_type
      (search_for_iac "/w"
        (FS.mk [("/config-tf.yml", "TF"), ("/prisma-cloud-config.yml", "SH")] []))
      "/w" (FS.mk [("/config-tf.yml", "TF"), ("/prisma-cloud-config.yml", "SH")] []) =
      .ok "none" ∧
    (mainRun "/w" (FS.mk [("/config-tf.yml", "TF"), ("/prisma-cloud-config.yml", "SH")] []) =
      .completed "none"
        (mainRun "/w"
          (FS.mk [("/config-tf.yml", "TF"), ("/prisma-cloud-config.yml", "SH")] [])).fs ∧
    isfile (mainRun "/w"
        (FS.mk [("/config-tf.yml", "TF"), ("/prisma-cloud-config.yml", "SH")] [])).fs
      ("/w" ++ "/dummy.tf") = true ∧
    (isfile (FS.mk [("/config-tf.yml", "TF"), ("/prisma-cloud-config.yml", "SH")] [])
        ("/w" ++ "/dummy.tf") = true →
      assocFind ("/w" ++ "/dummy.tf")
        (mainRun "/w"
          (FS.mk [("/config-tf.yml", "TF"), ("/prisma-cloud-config.yml", "SH")] [])).fs.files =
      assocFind ("/w" ++ "/dummy.tf")
        (FS.mk [("/config-tf.yml", "TF"), ("/prisma-cloud-config.yml", "SH")] []).files) ∧
    readFile (mainRun "/w"
        (FS.mk [("/config-tf.yml", "TF"), ("/prisma-cloud-config.yml", "SH")] [])).fs
      ("/w" ++ "/.prismaCloud/config.yml") =
      readFile (FS.mk [("/config-tf.yml", "TF"), ("/prisma-cloud-config.yml", "SH")] [])
        "/config-tf.yml" ∧
    readFile (mainRun "/w"
        (FS.mk [("/config-tf.yml", "TF"), ("/prisma-cloud-config.yml", "SH")] [])).fs
      ("/w" ++ "/.github/prisma-cloud-config.yml") =
      readFile (FS.mk [("/config-tf.yml", "TF"), ("/prisma-cloud-config.yml", "SH")] [])
        "/prisma-cloud-config.yml") :=
  ⟨by decide, by decide,
    spec_C7_none_creates_placeholder_and_copies "/w"
      (FS.mk [("/config-tf.yml", "TF"), ("/prisma-cloud-config.yml", "SH")] [])
      (by decide) (by decide) (by decide) (by decide) (by decide)⟩

/-- C8: on a workspace classified `tf` (real) or `cfm`, the configuration
writer succeeds, the placeholder `dummy.tf` is absent afterwards (deleted
when present, no error when absent), and the classification-matching scanner
template plus the shared pipeline-config template are copied into their fixed
locations. -/
theorem spec_C8_real_writers_delete_placeholder_and_copy
    (code_path : String) (fs : FS)
    (ht1 : isfile fs "/config-tf.yml" = true)
    (ht3 : isfile fs "/config-cfm.yml" = true)
    (ht2 : isfile fs "/prisma-cloud-config.yml" = true) :
    (configure_tf false code_path fs = .ok (exceptFS (configure_tf false code_path fs)) ∧
     isfile (exceptFS (configure_tf false code_path fs)) (code_path ++ "/dummy.tf") = false ∧
     readFile (exceptFS (configure_tf false code_path fs))
        (code_path ++ "/.prismaCloud/config.yml") = readFile fs "/config-tf.yml" ∧
     readFile (exceptFS (configure_tf false code_path fs))
        (code_path ++ "/.github/prisma-cloud-config.yml") =
       readFile fs "/prisma-cloud-config.yml") ∧
    (configure_cfm code_path fs = .ok (exceptFS (configure_cfm code_path fs)) ∧
     isfile (exceptFS (configure_cfm code_path fs)) (code_path ++ "/dummy.tf") = false ∧
     readFile (exceptFS (configure_cfm code_path fs))
        (code_path ++ "/.prismaCloud/config.yml") = readFile fs "/config-cfm.yml" ∧
     readFile (exceptFS (configure_cfm code_path fs))
        (code_path ++ "/.github/prisma-cloud-config.yml") =
       readFile fs "/prisma-cloud-config.yml") := by
  have hd_pc : code_path ++ "/dummy.tf" ≠ code_path ++ "/.prismaCloud/config.yml" :=
    append_right_ne code_path (by decide)
  have hd_gh : code_path ++ "/dummy.tf" ≠ code_path ++ "/.github/prisma-cloud-config.yml" :=
    append_right_ne code_path (by decide)
  have hpc_gh : code_path ++ "/.prismaCloud/config.yml" ≠
      code_path ++ "/.github/prisma-cloud-config.yml" :=
    append_right_ne code_path (by decide)
  have htf := configure_tf_real_spec code_path fs ht1 ht2
  have hcfm := configure_cfm_spec code_path fs ht3 ht2
  rw [htf, hcfm]
  simp only [exceptFS]
  refine ⟨⟨by trivial, ?_, ?_, ?_⟩, ⟨by trivial, ?_, ?_, ?_⟩⟩
  · rw [isfile_writeFile_ne _ _ _ _ hd_gh, isfile_writeFile_ne _ _ _ _ hd_pc]
    exact isfile_dummy_step fs _
  · rw [readFile_writeFile_ne _ _ _ _ hpc_gh, readFile_writeFile_self]
  · rw [readFile_writeFile_self]
  · rw [isfile_writeFile_ne _ _ _ _ hd_gh, isfile_writeFile_ne _ _ _ _ hd_pc]
    exact isfile_dummy_step fs _
  · rw [readFile_writeFile_ne _ _ _ _ hpc_gh, readFile_writeFile_self]
  · rw [readFile_writeFile_self]

/-- C8 witness: a workspace with a stale placeholder and all three template
sources available. -/
theorem spec_C8_witness :
    isfile (FS.mk [("/config-tf.yml", "TF"), ("/config-cfm.yml", "CF"),
        ("/prisma-cloud-config.yml", "SH"), ("/w/dummy.tf", "")] [])
      "/config-tf.yml" = true ∧
    isfile (FS.mk [("/config-tf.yml", "TF"), ("/config-cfm.yml", "CF"),
        ("/prisma-cloud-config.yml", "SH"), ("/w/dummy.tf", "")] [])
      "/config-cfm.yml" = true ∧
    isfile (FS.mk [("/config-tf.yml", "TF"), ("/config-cfm.yml", "CF"),
        ("/prisma-cloud-config.yml", "SH"), ("/w/dummy.tf", "")] [])
      "/prisma-cloud-config.yml" = true ∧
    isfile (exceptFS (configure_tf false "/w"
        (FS.mk [("/config-tf.yml", "TF"), ("/config-cfm.yml", "CF"),
          ("/prisma-cloud-config.yml", "SH"), ("/w/dummy.tf", "")] [])))
      ("/w" ++ "/dummy.tf") = false ∧
    isfile (exceptFS (configure_cfm "/w"
        (FS.mk [("/config-tf.yml", "TF"), ("/config-cfm.yml", "CF"),
          ("/prisma-cloud-config.yml", "SH"), ("/w/dummy.tf", "")] [])))
      ("/w" ++ "/dummy.tf") = false :=
  ⟨by decide, by decide, by decide,
    (spec_C8_real_writers_delete_placeholder_and_copy "/w"
      (FS.mk [("/config-tf.yml", "TF"), ("/config-cfm.yml", "CF"),
        ("/prisma-cloud-config.yml", "SH"), ("/w/dummy.tf", "")] [])
      (by decide) (by decide) (by decide)).1.2.1,
    (spec_C8_real_writers_delete_placeholder_and_copy "/w"
      (FS.mk [("/config-tf.yml", "TF"), ("/config-cfm.yml", "CF"),
        ("/prisma-cloud-config.yml", "SH"), ("/w/dummy.tf", "")] [])
      (by decide) (by decide) (by decide)).2.2.1⟩

theorem tfTarget_dummy (cp : String) : tfTarget (cp ++ "/dummy.tf") = true := by
  unfold tfTarget
  rw [pyLower_append, show pyLower "/dummy.tf" = "/dummy.tf" from by decide]
  exact strEndsWith_append_of _ _ _ (by decide)

theorem isfile_exceptFS_configure_tf_false (cp : String) (fs : FS) :
    isfile (exceptFS (configure_tf false cp fs)) (cp ++ "/dummy.tf") = false := by
  have hd_pc : cp ++ "/dummy.tf" ≠ cp ++ "/.prismaCloud/config.yml" :=
    append_right_ne cp (by decide)
  have hd_gh : cp ++ "/dummy.tf" ≠ cp ++ "/.github/prisma-cloud-config.yml" :=
    append_right_ne cp (by decide)
  simp only [configure_tf]
  rw [if_neg Bool.false_ne_true]
  generalize hS : (if pathExists fs (cp ++ "/dummy.tf") = true then
      removeFile fs (cp ++ "/dummy.tf") else fs) = S
  have hSd : isfile S (cp ++ "/dummy.tf") = false := by
    rw [← hS]; exact isfile_dummy_step fs _
  cases h1 : isfile S "/config-tf.yml" with
  | false =>
    rw [show copyfile "/config-tf.yml" (cp ++ "/.prismaCloud/config.yml") S =
        .error S from by simp [copyfile, h1]]
    simp only [Except.bind, exceptFS]
    exact hSd
  | true =>
    rw [copyfile_ok _ _ _ h1]
    simp only [Except.bind]
    cases h2 : isfile (writeFile S (cp ++ "/.prismaCloud/config.yml")
        (readFile S "/config-tf.yml")) "/prisma-cloud-config.yml" with
    | false =>
      rw [show copyfile "/prisma-cloud-config.yml" (cp ++ "/.github/prisma-cloud-config.yml")
          (writeFile S (cp ++ "/.prismaCloud/config.yml") (readFile S "/config-tf.yml")) =
          .error (writeFile S (cp ++ "/.prismaCloud/config.yml")
            (readFile S "/config-tf.yml")) from by simp [copyfile, h2]]
      simp only [exceptFS]
      rw [isfile_writeFile_ne _ _ _ _ hd_pc]
      exact hSd
    | true =>
      rw [copyfile_ok _ _ _ h2]
      simp only [exceptFS]
      rw [isfile_writeFile_ne _ _ _ _ hd_gh, isfile_writeFile_ne _ _ _ _ hd_pc]
      exact hSd

/-- C9: the placeholder file is itself counted by the Terraform counter: when
it is among the candidates and no candidate passes the CloudFormation test,
`check_iac_type` returns `"tf"` (not `"none"`), and the subsequent
real-Terraform configuration step leaves no `dummy.tf` behind. -/
theorem spec_C9_placeholder_counts_as_tf
    (targets : List String) (code_path : String) (fs : FS)
    (hmem : (code_path ++ "/dummy.tf") ∈ targets)
    (hnocfm : ∀ t ∈ targets, cfmTarget fs t = false) :
    check_iac_type targets code_path fs = .ok "tf" ∧
    isfile (exceptFS (configure_tf false code_path fs)) (code_path ++ "/dummy.tf") = false := by
  refine ⟨?_, isfile_exceptFS_configure_tf_false code_path fs⟩
  have htf : 0 < targets.countP tfTarget :=
    List.countP_pos_iff.mpr ⟨code_path ++ "/dummy.tf", hmem, tfTarget_dummy code_path⟩
  have hcfm0 : targets.countP (cfmTarget fs) = 0 :=
    List.countP_eq_zero.mpr (fun t ht => by rw [hnocfm t ht]; exact Bool.false_ne_true)
  rw [check_iac_type_eq_classify]
  exact classify_tf _ _ _ htf hcfm0

/-- C9 witness: a workspace whose only candidate is the placeholder. -/
theorem spec_C9_witness :
    ("/w" ++ "/dummy.tf") ∈ ["/w/dummy.tf"] ∧
    (∀ t ∈ ["/w/dummy.tf"], cfmTarget (FS.mk [("/w/dummy.tf", "")] []) t = false) ∧
    check_iac_type ["/w/dummy.tf"] "/w" (FS.mk [("/w/dummy.tf", "")] []) = .ok "tf" ∧
    isfile (exceptFS (configure_tf false "/w" (FS.mk [("/w/dummy.tf", "")] [])))
      ("/w" ++ "/dummy.tf") = false :=
  ⟨by decide, by decide,
    (spec_C9_placeholder_counts_as_tf ["/w/dummy.tf"] "/w" (FS.mk [("/w/dummy.tf", "")] [])
      (by decide) (by decide)).1,
    (spec_C9_placeholder_counts_as_tf ["/w/dummy.tf"] "/w" (FS.mk [("/w/dummy.tf", "")] [])
      (by decide) (by decide)).2⟩

/-- C10: the scanner and the classifier use different suffix tests: a file
passing only a bare (dotless) suffix test is collected by the scan, but
increments neither counter — its content is never read — and the
classification is the same as if it were absent from the candidate list. -/
theorem spec_C10_dotless_suffix_collected_but_ignored
    (t c : String) (code_path : String) (fs : FS) (ts1 ts2 : List String)
    (hmatch : searchMatch t = true)
    (htf : tfTarget t = false)
    (hcfm : cfmExt t = false) :
    ((t, c) ∈ fs.files → underRoot code_path t = true → t ∈ search_for_iac code_path fs) ∧
    iacCounts fs (ts1 ++ t :: ts2) 0 0 = iacCounts fs (ts1 ++ ts2) 0 0 ∧
    check_iac_type (ts1 ++ t :: ts2) code_path fs =
      check_iac_type (ts1 ++ ts2) code_path fs := by
  have hcfmT : cfmTarget fs t = false := by simp [cfmTarget, hcfm]
  have hcounts : iacCounts fs (ts1 ++ t :: ts2) 0 0 = iacCounts fs (ts1 ++ ts2) 0 0 := by
    rw [iacCounts_eq, iacCounts_eq]
    simp [List.countP_append, List.countP_cons, htf, hcfmT]
  refine ⟨?_, hcounts, ?_⟩
  · intro hin hu
    simp only [search_for_iac, List.mem_filter, List.mem_map]
    exact ⟨⟨(t, c), hin, rfl⟩, by simp [hu, hmatch]⟩
  · rw [check_iac_type_eq_classify, check_iac_type_eq_classify]
    have h1 : (ts1 ++ t :: ts2).countP tfTarget = (ts1 ++ ts2).countP tfTarget := by
      simp [List.countP_append, List.countP_cons, htf]
    have h2 : (ts1 ++ t :: ts2).countP (cfmTarget fs) = (ts1 ++ ts2).countP (cfmTarget fs) := by
      simp [List.countP_append, List.countP_cons, hcfmT]
    rw [h1, h2]

/-- C10 witness: an `.rtf` file (bare `tf` suffix, no dot) whose content even
contains the CloudFormation marker. -/
theorem spec_C10_witness :
    searchMatch "/w/x.rtf" = true ∧
    tfTarget "/w/x.rtf" = false ∧
    cfmExt "/w/x.rtf" = false ∧
    ("/w/x.rtf" ∈ search_for_iac "/w"
      (FS.mk [("/w/x.rtf", "AWSTemplateFormatVersion")] [])) ∧
    check_iac_type ["/w/x.rtf"] "/w" (FS.mk [("/w/x.rtf", "AWSTemplateFormatVersion")] []) =
      check_iac_type [] "/w" (FS.mk [("/w/x.rtf", "AWSTemplateFormatVersion")] []) :=
  ⟨by decide, by decide, by decide,
    (spec_C10_dotless_suffix_collected_but_ignored "/w/x.rtf" "AWSTemplateFormatVersion"
      "/w" (FS.mk [("/w/x.rtf", "AWSTemplateFormatVersion")] []) [] []
      (by decide) (by decide) (by decide)).1 (by decide) (by decide),
    (spec_C10_dotless_suffix_collected_but_ignored "/w/x.rtf" "AWSTemplateFormatVersion"
      "/w" (FS.mk [("/w/x.rtf", "AWSTemplateFormatVersion")] []) [] []
      (by decide) (by decide) (by decide)).2.2⟩
